import Mathlib

/-!
Verification of the `SHOW ...` statement compiler of the SQL planning layer
(`src/sql/src/plan/statement/show.rs`).

The embedding below translates the source file's data model and handlers into
executable Lean definitions.  The catalog, the general parser and the general
planner are external collaborators of the file under study; they enter the
model only through the `StatementContext` record of resolution functions and,
for the parser, through the malformedness predicate `danglingCommaBeforeFrom`,
which is modelled from the specification.
-/

set_option maxRecDepth 100000
set_option maxHeartbeats 2000000

namespace MaterializeShow

/-! ## String utilities

The synthesized queries are strings, so the properties below are stated with
an executable substring search and an executable "text before the first
occurrence" function, both defined over the character lists underlying
`String`. -/

/-- `hasSubstrL frag s` decides whether `frag` occurs contiguously in `s`. -/
def hasSubstrL (frag : List Char) : List Char → Bool
  | [] => frag.isEmpty
  | c :: rest => List.isPrefixOf frag (c :: rest) || hasSubstrL frag rest

/-- `hasSubstr s frag` decides whether the string `frag` occurs in `s`. -/
def hasSubstr (s frag : String) : Bool :=
  hasSubstrL frag.data s.data

/-- `takeUntilL frag s`: the longest prefix of `s` that stops right before the
first occurrence of `frag` (all of `s` when `frag` does not occur). -/
def takeUntilL (frag : List Char) : List Char → List Char
  | [] => []
  | c :: rest =>
    if List.isPrefixOf frag (c :: rest) then []
    else c :: takeUntilL frag rest

/-- String version of `takeUntilL`; used to isolate the SELECT clause of a
synthesized query (the text before the first `FROM`). -/
def takeUntilSubstr (s frag : String) : String :=
  ⟨takeUntilL frag.data s.data⟩

theorem hasSubstrL_nil (s : List Char) : hasSubstrL [] s = true := by
  cases s with
  | nil => rfl
  | cons c rest => simp [hasSubstrL, List.isPrefixOf]

theorem hasSubstrL_cons (frag : List Char) (c : Char) (rest : List Char)
    (h : hasSubstrL frag rest = true) : hasSubstrL frag (c :: rest) = true := by
  simp [hasSubstrL, h]

theorem hasSubstrL_append_right (frag a b : List Char)
    (h : hasSubstrL frag b = true) : hasSubstrL frag (a ++ b) = true := by
  induction a with
  | nil => simpa using h
  | cons c a ih => simpa [hasSubstrL] using Or.inr ih

theorem isPrefixOf_append_left (frag a b : List Char)
    (h : List.isPrefixOf frag a = true) : List.isPrefixOf frag (a ++ b) = true := by
  rw [ List.isPrefixOf_iff_prefix] at h ⊢
  exact h.trans (List.prefix_append a b)

theorem hasSubstrL_length_le (frag s : List Char)
    (h : hasSubstrL frag s = true) : frag.length ≤ s.length := by
  induction s with
  | nil =>
    simp [hasSubstrL, List.isEmpty_iff] at h
    simp [h]
  | cons c rest ih =>
    rw [hasSubstrL, Bool.or_eq_true] at h
    rcases h with h | h
    · rw [ List.isPrefixOf_iff_prefix] at h
      exact h.length_le
    · exact Nat.le_trans (ih h) (by simp)

theorem hasSubstrL_append_left (frag a b : List Char)
    (h : hasSubstrL frag a = true) : hasSubstrL frag (a ++ b) = true := by
  induction a with
  | nil =>
    simp [hasSubstrL, List.isEmpty_iff] at h
    subst h
    exact hasSubstrL_nil _
  | cons c a ih =>
    rw [hasSubstrL, Bool.or_eq_true] at h
    rw [List.cons_append, hasSubstrL, Bool.or_eq_true]
    rcases h with h | h
    · exact Or.inl (isPrefixOf_append_left _ _ _ h)
    · exact Or.inr (ih h)

/-- A prefix of `a ++ b` that is no longer than `a` is a prefix of `a`. -/
theorem prefix_of_append_of_length_le {frag a b : List Char}
    (h : frag <+: a ++ b) (hl : frag.length ≤ a.length) : frag <+: a :=
  List.prefix_of_prefix_length_le h (List.prefix_append a b) hl

/-- If `frag` occurs somewhere inside `a`, then scanning `a ++ b` finds the
same first occurrence: the text before it is unchanged. -/
theorem takeUntilL_append (frag a b : List Char)
    (h : hasSubstrL frag a = true) :
    takeUntilL frag (a ++ b) = takeUntilL frag a := by
  induction a with
  | nil =>
    simp [hasSubstrL, List.isEmpty_iff] at h
    subst h
    cases b with
    | nil => rfl
    | cons c rest => simp [takeUntilL, List.isPrefixOf]
  | cons c a ih =>
    rw [hasSubstrL, Bool.or_eq_true] at h
    rw [List.cons_append, takeUntilL, takeUntilL]
    by_cases hp : List.isPrefixOf frag (c :: a) = true
    · have hp2 : List.isPrefixOf frag (c :: (a ++ b)) = true := by
        have h2 := isPrefixOf_append_left frag (c :: a) b hp
        simpa using h2
      simp [hp, hp2]
    · have hsub : hasSubstrL frag a = true := by
        rcases h with h | h
        · exact absurd h hp
        · exact h
      have hlen : frag.length ≤ (c :: a).length := by
        have := hasSubstrL_length_le frag a hsub
        simp
        omega
      have hp' : ¬ List.isPrefixOf frag (c :: (a ++ b)) = true := by
        intro hcontra
        apply hp
        rw [ List.isPrefixOf_iff_prefix] at hcontra ⊢
        have : frag <+: (c :: a) ++ b := by simpa using hcontra
        exact prefix_of_append_of_length_le this hlen
      rw [if_neg hp', if_neg hp, ih hsub]

/-- Occurrence in a concatenation `a ++ b ++ c` whose middle block `b` is
nonempty and consists of digits only, while the fragment contains no digit,
must lie entirely inside `a` or entirely inside `c`. -/
theorem hasSubstrL_append_middle_digits (frag a b c : List Char)
    (hfrag : ∀ ch ∈ frag, ch.isDigit = false)
    (hb : ∀ ch ∈ b, ch.isDigit = true) (hbne : b ≠ [])
    (h : hasSubstrL frag (a ++ (b ++ c)) = true) :
    hasSubstrL frag a = true ∨ hasSubstrL frag c = true := by
  induction a with
  | nil =>
    right
    simp only [List.nil_append] at h
    clear hbne
    induction b with
    | nil => simpa using h
    | cons d b' ihb =>
      rw [List.cons_append, hasSubstrL, Bool.or_eq_true] at h
      rcases h with h | h
      · cases frag with
        | nil => exact hasSubstrL_nil c
        | cons f0 frag' =>
          exfalso
          rw [ List.isPrefixOf_iff_prefix] at h
          rcases h with ⟨t, ht⟩
          rw [List.cons_append] at ht
          have hf0 : f0 = d := (List.cons.injEq _ _ _ _).mp ht |>.1
          have h1 : f0.isDigit = false := hfrag f0 (by simp)
          have h2 : d.isDigit = true := hb d (by simp)
          rw [hf0, h2] at h1
          exact Bool.noConfusion h1
      · exact ihb (fun ch hch => hb ch (by simp [hch])) h
  | cons x a' ih =>
    rw [List.cons_append, hasSubstrL, Bool.or_eq_true] at h
    rcases h with h | h
    · left
      rw [ List.isPrefixOf_iff_prefix] at h
      have hfit : frag.length ≤ (x :: a').length := by
        by_contra hgt
        push_neg at hgt
        have hA : (x :: a') <+: frag :=
          List.prefix_of_prefix_length_le (List.prefix_append _ _)
            (by simpa using h) (Nat.le_of_lt hgt)
        rcases hA with ⟨rest, hrest⟩
        have hrest' : rest <+: b ++ c := by
          rcases h with ⟨t, ht⟩
          rw [← hrest] at ht
          have ht4 : rest ++ t = b ++ c := by simpa using ht
          exact ⟨t, ht4⟩
        have hrne : rest ≠ [] := by
          intro hr
          rw [hr, List.append_nil] at hrest
          rw [← hrest] at hgt
          omega
        cases rest with
        | nil => exact hrne rfl
        | cons r0 rs =>
          cases b with
          | nil => exact hbne rfl
          | cons d b' =>
            rcases hrest' with ⟨t, ht⟩
            rw [List.cons_append, List.cons_append] at ht
            have hr0 : r0 = d := (List.cons.injEq _ _ _ _).mp ht |>.1
            have h1 : r0.isDigit = false := by
              apply hfrag
              rw [← hrest]
              simp
            have h2 : d.isDigit = true := hb d (by simp)
            rw [hr0, h2] at h1
            exact Bool.noConfusion h1
      have : frag <+: x :: a' :=
        prefix_of_append_of_length_le (by simpa using h) hfit
      rw [hasSubstrL, Bool.or_eq_true]
      exact Or.inl (by rw [ List.isPrefixOf_iff_prefix]; exact this)
    · rcases ih h with h' | h'
      · exact Or.inl (hasSubstrL_cons _ _ _ h')
      · exact Or.inr h'

/-! ## Data model

Faithful counterparts of the types the handlers consume.  Identifiers
(database ids, schema ids, global object ids) are modelled by their rendered
textual form: the code under study only ever interpolates them into query
text via their `Display` implementation, so the rendered string is the whole
of their observable behaviour here. -/

/-- `CatalogItemType` from `crate::catalog`: the kind tag of a catalog item. -/
inductive CatalogItemType
  | Table
  | View
  | Source
  | Sink
  | Index
  deriving DecidableEq

/-- Modelled from the spec: the human-readable rendering of an item's kind,
used when a kind is interpolated into an error message ("... because it is a
{}").  The `Display` implementation lives outside the excerpted file; the
spec only requires that the message name the actual kind. -/
def CatalogItemType.toDisplay : CatalogItemType → String
  | .Table => "table"
  | .View => "view"
  | .Source => "source"
  | .Sink => "sink"
  | .Index => "index"

/-- The slice of a catalog item the handlers read: `item_type()`,
`create_sql()` (the verbatim defining SQL text) and `id()` (the global id,
modelled by its rendered form, e.g. "u3"). -/
structure CatalogItem where
  item_type : CatalogItemType
  create_sql : String
  id : String
  deriving DecidableEq

/-- A resolved schema scope; `id` is the schema identifier as rendered into
query text. -/
structure SchemaSpec where
  id : String
  deriving DecidableEq

/-- `ShowStatementFilter` from the parser AST.  A `Where` filter carries an
expression AST of which the handlers only ever take the surface text
(`expr.to_string()`), so the expression is modelled by that text. -/
inductive ShowStatementFilter
  | Like (pattern : String)
  | Where (expr : String)
  deriving DecidableEq

/-- Errors a handler can return.  `unsupportedFeature` is modelled from the
spec: the `unsupported!` macro (outside the excerpted file) fails with an
`UnsupportedFeature` error naming the exact feature.  `other` carries the
formatted message of an `anyhow::bail!`. -/
inductive PlanError
  | unsupportedFeature (feature : String)
  | other (msg : String)
  deriving DecidableEq

/-- The only datum shape these handlers produce: `Datum::String`. -/
inductive Datum
  | str (s : String)
  deriving DecidableEq

/-- The only plan shape these handlers produce directly:
`Plan::SendRows(rows)`, each row a packed list of datums. -/
inductive Plan
  | SendRows (rows : List (List Datum))
  deriving DecidableEq

/-- The resolution interface of `StatementContext` / the catalog, consumed as
an external collaborator: each lookup either resolves or fails.  Qualified
names are modelled by their rendered form (`name.to_string()`). -/
structure StatementContext where
  resolveDatabase : String → Except PlanError (String × String)
  resolveDefaultDatabase : Except PlanError (String × String)
  resolveSchema : String → Except PlanError (String × SchemaSpec)
  resolveDefaultSchema : Except PlanError SchemaSpec
  resolveItem : String → Except PlanError String
  getItem : String → CatalogItem

/-- `ShowSelect` owns the synthesized query text.  `ShowSelect::new` also
re-parses the text through the general parser and asserts the result is a
single `SELECT`; the parser is an external collaborator, so that assertion is
modelled separately by the malformedness predicate
`danglingCommaBeforeFrom` below. -/
structure ShowSelect where
  query : String
  deriving DecidableEq

/-- Constructor mirroring `ShowSelect::new(scx, query)`; the context borrow
does not affect the stored text. -/
def ShowSelect.new (_scx : StatementContext) (query : String) : ShowSelect :=
  ⟨query⟩

/-- Modelled from the spec: the query language's string-literal quoting
routine used by `Value::String(...)`'s display — the pattern is wrapped in
single quotes with embedded single quotes doubled. -/
def sqlStringLiteral (s : String) : String :=
  "\x27" ++ String.mk (s.data.flatMap fun c =>
    if c = '\x27' then ['\x27', '\x27'] else [c]) ++ "\x27"

/-! ## Filter translation

Each `show_*` entry point translates its optional filter with a small
`match`.  The `match` blocks of `show_tables`, `show_sources`, `show_views`
and `show_columns` are textually identical in the source; they are shared
here as `filterAndName`.  The other call sites differ and get their own
definitions. -/

/-- Filter translation of `show_tables`, `show_sources`, `show_views` and
`show_columns`: `Like` → `AND name LIKE <quoted>`, `Where` → `AND <expr>`,
absent → empty fragment. -/
def filterAndName : Option ShowStatementFilter → String
  | some (.Like like) => "AND name LIKE " ++ sqlStringLiteral like
  | some (.Where expr) => "AND " ++ expr
  | none => ""

/-- Filter translation of `show_sinks`: the `Like` column is `sinks`. -/
def filterAndSinks : Option ShowStatementFilter → String
  | some (.Like like) => "AND sinks LIKE " ++ sqlStringLiteral like
  | some (.Where expr) => "AND " ++ expr
  | none => ""

/-- Filter translation of `show_databases` and `show_schemas`: the fragment
is a bare predicate for an outer `WHERE`, and an absent filter becomes the
literal truth value. -/
def filterWhereName : Option ShowStatementFilter → String
  | some (.Like like) => "name LIKE " ++ sqlStringLiteral like
  | some (.Where expr) => expr
  | none => "true"

/-- Filter translation of `show_indexes` (only reached when a filter is
present): the `Like` column is `key_name`. -/
def filterKeyName : ShowStatementFilter → String
  | .Like like => "key_name LIKE " ++ sqlStringLiteral like
  | .Where expr => expr

/-! ## SHOW CREATE handlers -/

/-- `handle_show_create_view`: resolve, fetch, check the kind, and either
send the single two-column row or fail. -/
def handle_show_create_view (scx : StatementContext) (view_name : String) :
    Except PlanError Plan :=
  match scx.resolveItem view_name with
  | .error e => .error e
  | .ok name =>
    let entry := scx.getItem name
    if entry.item_type = CatalogItemType.View then
      .ok (Plan.SendRows [[Datum.str name, Datum.str entry.create_sql]])
    else
      .error (.other (name ++ " is not a view"))

/-- `handle_show_create_table`. -/
def handle_show_create_table (scx : StatementContext) (table_name : String) :
    Except PlanError Plan :=
  match scx.resolveItem table_name with
  | .error e => .error e
  | .ok name =>
    let entry := scx.getItem name
    if entry.item_type = CatalogItemType.Table then
      .ok (Plan.SendRows [[Datum.str name, Datum.str entry.create_sql]])
    else
      .error (.other (name ++ " is not a table"))

/-- `handle_show_create_source`. -/
def handle_show_create_source (scx : StatementContext) (source_name : String) :
    Except PlanError Plan :=
  match scx.resolveItem source_name with
  | .error e => .error e
  | .ok name =>
    let entry := scx.getItem name
    if entry.item_type = CatalogItemType.Source then
      .ok (Plan.SendRows [[Datum.str name, Datum.str entry.create_sql]])
    else
      .error (.other (name ++ " is not a source"))

/-- `handle_show_create_sink` (note the quotes around the name in the
message, as in the source). -/
def handle_show_create_sink (scx : StatementContext) (sink_name : String) :
    Except PlanError Plan :=
  match scx.resolveItem sink_name with
  | .error e => .error e
  | .ok name =>
    let entry := scx.getItem name
    if entry.item_type = CatalogItemType.Sink then
      .ok (Plan.SendRows [[Datum.str name, Datum.str entry.create_sql]])
    else
      .error (.other ("\x27" ++ name ++ "\x27 is not a sink"))

/-- `handle_show_create_index` (quoted name in the message, as in the
source). -/
def handle_show_create_index (scx : StatementContext) (index_name : String) :
    Except PlanError Plan :=
  match scx.resolveItem index_name with
  | .error e => .error e
  | .ok name =>
    let entry := scx.getItem name
    if entry.item_type = CatalogItemType.Index then
      .ok (Plan.SendRows [[Datum.str name, Datum.str entry.create_sql]])
    else
      .error (.other ("\x27" ++ name ++ "\x27 is not an index"))

/-! ## Query synthesis entry points

Each definition mirrors one `show_*` function of the source: resolve the
scope (or target item), translate the filter, select a query shape by the
flag combination, and hand the text to `ShowSelect::new`.  The query strings
below reproduce the source's format strings byte for byte, with each `{}`
hole replaced by the interpolated value. -/

/-- `show_databases`. -/
def show_databases (scx : StatementContext)
    (filter : Option ShowStatementFilter) : Except PlanError ShowSelect :=
  let filter := filterWhereName filter
  .ok (ShowSelect.new scx
    ("SELECT * FROM (SELECT name FROM mz_catalog.mz_databases) WHERE " ++ filter))

/-- `show_schemas`: resolve the database scope, pick one of the four shapes
by `full`/`extended`, then wrap with the outer filtered SELECT. -/
def show_schemas (scx : StatementContext) (extended full : Bool)
    (fromName : Option String) (filter : Option ShowStatementFilter) :
    Except PlanError ShowSelect :=
  match (match fromName with
         | some f => scx.resolveDatabase f
         | none => scx.resolveDefaultDatabase) with
  | .error e => .error e
  | .ok (_database_name, database_id) =>
    let filter := filterWhereName filter
    let query :=
      if !full && !extended then
        "SELECT name FROM mz_catalog.mz_schemas WHERE database_id = " ++ database_id
      else if full && !extended then
        "SELECT name, CASE WHEN database_id IS NULL THEN \x27system\x27 ELSE \x27user\x27 END AS type\n            FROM mz_catalog.mz_schemas\n            WHERE database_id = " ++ database_id
      else if !full && extended then
        "SELECT name\n            FROM mz_catalog.mz_schemas\n            WHERE database_id = " ++ database_id ++ " OR database_id IS NULL"
      else
        "SELECT name, CASE WHEN database_id IS NULL THEN \x27system\x27 ELSE \x27user\x27 END AS type\n            FROM mz_catalog.mz_schemas\n            WHERE database_id = " ++ database_id ++ " OR database_id IS NULL"
    let query := "SELECT * FROM (" ++ query ++ ") WHERE " ++ filter
    .ok (ShowSelect.new scx query)

/-- `show_tables`: rejects `EXTENDED` before any resolution. -/
def show_tables (scx : StatementContext) (extended full : Bool)
    (fromName : Option String) (filter : Option ShowStatementFilter) :
    Except PlanError ShowSelect :=
  if extended then
    .error (.unsupportedFeature "SHOW EXTENDED TABLES")
  else
    match (match fromName with
           | some f =>
             match scx.resolveSchema f with
             | .error e => .error e
             | .ok (_, spec) => .ok spec
           | none => scx.resolveDefaultSchema : Except PlanError SchemaSpec) with
    | .error e => .error e
    | .ok schema_spec =>
      let filter := filterAndName filter
      let query :=
        if full then
          "SELECT name, mz_internal.mz_classify_object_id(global_id) AS type\n            FROM mz_catalog.mz_tables\n            WHERE schema_id = " ++ schema_spec.id ++ " " ++ filter ++ "\n            ORDER BY name, type"
        else
          "SELECT name FROM mz_catalog.mz_tables WHERE schema_id = " ++ schema_spec.id ++ " " ++ filter ++ " ORDER BY name"
      .ok (ShowSelect.new scx query)

/-- `show_sources`: four query shapes over `full`/`materialized`.  The
`full && materialized` branch reproduces the source's dangling comma before
`FROM`. -/
def show_sources (scx : StatementContext) (full materialized : Bool)
    (fromName : Option String) (filter : Option ShowStatementFilter) :
    Except PlanError ShowSelect :=
  match (match fromName with
         | some f =>
           match scx.resolveSchema f with
           | .error e => .error e
           | .ok (_, spec) => .ok spec
         | none => scx.resolveDefaultSchema : Except PlanError SchemaSpec) with
  | .error e => .error e
  | .ok schema_spec =>
    let filter := filterAndName filter
    let query :=
      if !full && !materialized then
        "SELECT name FROM mz_catalog.mz_sources WHERE schema_id = " ++ schema_spec.id ++ " " ++ filter ++ " ORDER BY name"
      else if full && !materialized then
        "SELECT name, mz_internal.mz_classify_object_id(global_id) AS type,\n                CASE WHEN count > 0 then true ELSE false END materialized\n            FROM mz_catalog.mz_sources\n            JOIN (SELECT mz_catalog.mz_sources.global_id as global_id, count(mz_catalog.mz_indexes.on_global_id) AS count\n                  FROM mz_catalog.mz_sources\n                  LEFT JOIN mz_catalog.mz_indexes on mz_catalog.mz_sources.global_id = mz_catalog.mz_indexes.on_global_id\n                  GROUP BY mz_catalog.mz_sources.global_id) as mz_indexes_count\n                ON mz_catalog.mz_sources.global_id = mz_indexes_count.global_id\n            WHERE schema_id = " ++ schema_spec.id ++ " " ++ filter ++ "\n            ORDER BY name, type"
      else if !full && materialized then
        "SELECT name\n            FROM mz_catalog.mz_sources\n            JOIN (SELECT mz_catalog.mz_sources.global_id as global_id, count(mz_catalog.mz_indexes.on_global_id) AS count\n                  FROM mz_catalog.mz_sources\n                  LEFT JOIN mz_catalog.mz_indexes on mz_catalog.mz_sources.global_id = mz_catalog.mz_indexes.on_global_id\n                  GROUP BY mz_catalog.mz_sources.global_id) as mz_indexes_count\n                ON mz_catalog.mz_sources.global_id = mz_indexes_count.global_id\n            WHERE schema_id = " ++ schema_spec.id ++ " " ++ filter ++ " AND mz_indexes_count.count > 0\n            ORDER BY name"
      else
        "SELECT name, mz_internal.mz_classify_object_id(global_id) AS type,\n            FROM mz_catalog.mz_sources\n            JOIN (SELECT mz_catalog.mz_sources.global_id as global_id, count(mz_catalog.mz_indexes.on_global_id) AS count\n                  FROM mz_catalog.mz_sources\n                  LEFT JOIN mz_catalog.mz_indexes on mz_catalog.mz_sources.global_id = mz_catalog.mz_indexes.on_global_id\n                  GROUP BY mz_catalog.mz_sources.global_id) as mz_indexes_count\n                ON mz_catalog.mz_sources.global_id = mz_indexes_count.global_id\n            WHERE schema_id = " ++ schema_spec.id ++ " " ++ filter ++ " AND mz_indexes_count.count > 0\n            ORDER BY name, type"
    .ok (ShowSelect.new scx query)

/-- `show_views`: four query shapes over `full`/`materialized`. -/
def show_views (scx : StatementContext) (full materialized : Bool)
    (fromName : Option String) (filter : Option ShowStatementFilter) :
    Except PlanError ShowSelect :=
  match (match fromName with
         | some f =>
           match scx.resolveSchema f with
           | .error e => .error e
           | .ok (_, spec) => .ok spec
         | none => scx.resolveDefaultSchema : Except PlanError SchemaSpec) with
  | .error e => .error e
  | .ok schema_spec =>
    let filter := filterAndName filter
    let query :=
      if !full && !materialized then
        "SELECT name\n             FROM mz_catalog.mz_views\n             WHERE mz_catalog.mz_views.schema_id = " ++ schema_spec.id ++ " " ++ filter ++ "\n             ORDER BY name"
      else if full && !materialized then
        "SELECT\n                name,\n                mz_internal.mz_classify_object_id(global_id) AS type,\n                count > 0 as materialized\n             FROM mz_catalog.mz_views as mz_views\n             JOIN (SELECT mz_views.global_id as global_id, count(mz_indexes.on_global_id) AS count\n                   FROM mz_views\n                   LEFT JOIN mz_indexes on mz_views.global_id = mz_indexes.on_global_id\n                   GROUP BY mz_views.global_id) as mz_indexes_count\n                ON mz_views.global_id = mz_indexes_count.global_id\n             WHERE mz_catalog.mz_views.schema_id = " ++ schema_spec.id ++ " " ++ filter ++ "\n             ORDER BY name"
      else if !full && materialized then
        "SELECT name\n             FROM mz_catalog.mz_views\n             JOIN (SELECT mz_views.global_id as global_id, count(mz_indexes.on_global_id) AS count\n                   FROM mz_views\n                   LEFT JOIN mz_indexes on mz_views.global_id = mz_indexes.on_global_id\n                   GROUP BY mz_views.global_id) as mz_indexes_count\n                ON mz_views.global_id = mz_indexes_count.global_id\n             WHERE mz_catalog.mz_views.schema_id = " ++ schema_spec.id ++ "\n                AND mz_indexes_count.count > 0 " ++ filter ++ "\n             ORDER BY name"
      else
        "SELECT name, mz_internal.mz_classify_object_id(global_id) AS type\n             FROM mz_catalog.mz_views\n             JOIN (SELECT mz_views.global_id as global_id, count(mz_indexes.on_global_id) AS count\n                   FROM mz_views\n                   LEFT JOIN mz_indexes on mz_views.global_id = mz_indexes.on_global_id\n                   GROUP BY mz_views.global_id) as mz_indexes_count\n                ON mz_views.global_id = mz_indexes_count.global_id\n             WHERE mz_catalog.mz_views.schema_id = " ++ schema_spec.id ++ "\n                AND mz_indexes_count.count > 0 " ++ filter ++ "\n             ORDER BY name"
    .ok (ShowSelect.new scx query)

/-- `show_sinks`. -/
def show_sinks (scx : StatementContext) (full : Bool)
    (fromName : Option String) (filter : Option ShowStatementFilter) :
    Except PlanError ShowSelect :=
  match (match fromName with
         | some f =>
           match scx.resolveSchema f with
           | .error e => .error e
           | .ok (_, spec) => .ok spec
         | none => scx.resolveDefaultSchema : Except PlanError SchemaSpec) with
  | .error e => .error e
  | .ok schema_spec =>
    let filter := filterAndSinks filter
    let query :=
      if full then
        "SELECT name, mz_classify_object_id(global_id) AS type\n            FROM mz_catalog.mz_sinks\n            WHERE schema_id = " ++ schema_spec.id ++ " " ++ filter ++ "\n            ORDER BY name, type"
      else
        "SELECT name FROM mz_catalog.mz_sinks WHERE schema_id = " ++ schema_spec.id ++ " " ++ filter ++ " ORDER BY name"
    .ok (ShowSelect.new scx query)

/-- The `base_query` local of `show_indexes`, parameterized by the rendered
global id of the target item. -/
def show_indexes_base_query (gid : String) : String :=
  "SELECT\n            objs.name AS on_name,\n            idxs.name AS key_name,\n            cols.name AS column_name,\n            idxs.expression AS expression,\n            idxs.nullable AS nullable,\n            idxs.seq_in_index AS seq_in_index\n        FROM\n            mz_catalog.mz_indexes AS idxs\n            JOIN mz_catalog.mz_objects AS objs ON idxs.on_global_id = objs.global_id\n            LEFT JOIN mz_catalog.mz_columns AS cols\n                ON idxs.on_global_id = cols.global_id AND idxs.field_number = cols.field_number\n        WHERE\n            objs.global_id = \x27" ++ gid ++ "\x27\n        ORDER BY\n            key_name ASC,\n            seq_in_index ASC"

/-- `show_indexes`: rejects `EXTENDED` first, then resolves the target and
validates that its kind can carry indexes, then builds the base query and —
only when a filter is present — wraps it in an outer filtered SELECT. -/
def show_indexes (scx : StatementContext) (extended : Bool)
    (table_name : String) (filter : Option ShowStatementFilter) :
    Except PlanError ShowSelect :=
  if extended then
    .error (.unsupportedFeature "SHOW EXTENDED INDEXES")
  else
    match scx.resolveItem table_name with
    | .error e => .error e
    | .ok from_name =>
      let from_entry := scx.getItem from_name
      if from_entry.item_type ≠ CatalogItemType.View ∧
          from_entry.item_type ≠ CatalogItemType.Source ∧
          from_entry.item_type ≠ CatalogItemType.Table then
        .error (.other ("cannot show indexes on " ++ from_name ++
          " because it is a " ++ from_entry.item_type.toDisplay))
      else
        let base_query := show_indexes_base_query from_entry.id
        let query :=
          match filter with
          | some filter =>
            let filter := filterKeyName filter
            "SELECT on_name, key_name, column_name, expression, nullable, seq_in_index\n             FROM (" ++ base_query ++ ")\n             WHERE " ++ filter
          | none => base_query
        .ok (ShowSelect.new scx query)

/-- `show_columns`: rejects `EXTENDED` and `FULL` (in that order) before any
resolution. -/
def show_columns (scx : StatementContext) (extended full : Bool)
    (table_name : String) (filter : Option ShowStatementFilter) :
    Except PlanError ShowSelect :=
  if extended then
    .error (.unsupportedFeature "SHOW EXTENDED COLUMNS")
  else if full then
    .error (.unsupportedFeature "SHOW FULL COLUMNS")
  else
    match scx.resolveItem table_name with
    | .error e => .error e
    | .ok name =>
      let entry := scx.getItem name
      let filter := filterAndName filter
      let query :=
        "SELECT\n            mz_columns.name,\n            mz_columns.nullable,\n            mz_columns.type\n         FROM mz_catalog.mz_columns AS mz_columns\n         WHERE mz_columns.global_id = \x27" ++ entry.id ++ "\x27 " ++ filter ++ "\n         ORDER BY mz_columns.field_number ASC"
      .ok (ShowSelect.new scx query)

/-! ## Concrete contexts used to instantiate theorems -/

/-- A context whose schema and database scopes all resolve to the given
rendered identifier; item resolution is irrelevant for the listing variants
that use it. -/
def schemaCtx (i : String) : StatementContext where
  resolveDatabase := fun _ => .ok ("db", i)
  resolveDefaultDatabase := .ok ("db", i)
  resolveSchema := fun _ => .ok ("sch", ⟨i⟩)
  resolveDefaultSchema := .ok ⟨i⟩
  resolveItem := fun _ => .error (.other "unused")
  getItem := fun _ => ⟨.Table, "", "u0"⟩

/-- A context with a single resolvable item of the given kind, defining SQL
and rendered global id. -/
def itemCtx (name : String) (t : CatalogItemType) (createSql gid : String) :
    StatementContext where
  resolveDatabase := fun _ => .error (.other "unused")
  resolveDefaultDatabase := .error (.other "unused")
  resolveSchema := fun _ => .error (.other "unused")
  resolveDefaultSchema := .error (.other "unused")
  resolveItem := fun _ => .ok name
  getItem := fun _ => ⟨t, createSql, gid⟩

/-! ## The parse step of `ShowSelect::new`, modelled from the spec

The spec says of the Parser collaborator: `parse(text)` "fails with a parse
error on malformed text", and `ShowSelect::new` asserts the parse succeeded
with a single `SELECT` — panicking otherwise.  A select list that ends with a
comma directly followed (across whitespace) by the keyword `FROM` is
malformed in the query language, so the predicate below, on text containing
no quoted string literals, witnesses that `parse` fails and the assertion
panics. -/

/-- Helper: after skipping spaces and newlines, does the text start with
`FROM`? -/
def wsThenFrom : List Char → Bool
  | [] => false
  | c :: rest =>
    if c == ' ' || c == '\n' then wsThenFrom rest
    else List.isPrefixOf "FROM".data (c :: rest)

/-- Helper: does the text contain a comma followed (across whitespace) by
`FROM`? -/
def commaThenFrom : List Char → Bool
  | [] => false
  | c :: rest => (c == ',' && wsThenFrom rest) || commaThenFrom rest

/-- Modelled from the spec: a sufficient condition for the external parser to
reject the text (on text with no quoted string literals), making the
assertion in `ShowSelect::new` panic. -/
def danglingCommaBeforeFrom (s : String) : Bool :=
  commaThenFrom s.data

/-! ## Claims -/

/-- C5: `SHOW EXTENDED TABLES`, `SHOW EXTENDED COLUMNS`, `SHOW FULL COLUMNS` and
`SHOW EXTENDED INDEXES` fail with an `UnsupportedFeature` error naming the exact
combination, for every flag setting, target, filter and context; the result does
not depend on the context at all, so the failure precedes any catalog access. -/
theorem c5_unsupported_combinations_fail_fast :
    (∀ (scx : StatementContext) (full : Bool) (fromName : Option String)
        (filter : Option ShowStatementFilter),
      show_tables scx true full fromName filter =
        .error (.unsupportedFeature "SHOW EXTENDED TABLES")) ∧
    (∀ (scx : StatementContext) (full : Bool) (nm : String)
        (filter : Option ShowStatementFilter),
      show_columns scx true full nm filter =
        .error (.unsupportedFeature "SHOW EXTENDED COLUMNS")) ∧
    (∀ (scx : StatementContext) (nm : String) (filter : Option ShowStatementFilter),
      show_columns scx false true nm filter =
        .error (.unsupportedFeature "SHOW FULL COLUMNS")) ∧
    (∀ (scx : StatementContext) (nm : String) (filter : Option ShowStatementFilter),
      show_indexes scx true nm filter =
        .error (.unsupportedFeature "SHOW EXTENDED INDEXES")) :=
  ⟨fun _ _ _ _ => rfl, fun _ _ _ _ => rfl, fun _ _ _ => rfl, fun _ _ _ => rfl⟩

/-- C6: each `SHOW CREATE` handler, on an item whose catalog kind matches the
requested kind, returns a plan with exactly one row and two string columns: the
resolved qualified name and the stored defining SQL text verbatim. -/
theorem c6_show_create_roundtrip :
    ∀ (scx : StatementContext) (nm name : String),
      scx.resolveItem nm = .ok name →
      (((scx.getItem name).item_type = CatalogItemType.View →
        handle_show_create_view scx nm =
          .ok (Plan.SendRows [[Datum.str name, Datum.str (scx.getItem name).create_sql]])) ∧
      ((scx.getItem name).item_type = CatalogItemType.Table →
        handle_show_create_table scx nm =
          .ok (Plan.SendRows [[Datum.str name, Datum.str (scx.getItem name).create_sql]])) ∧
      ((scx.getItem name).item_type = CatalogItemType.Source →
        handle_show_create_source scx nm =
          .ok (Plan.SendRows [[Datum.str name, Datum.str (scx.getItem name).create_sql]])) ∧
      ((scx.getItem name).item_type = CatalogItemType.Sink →
        handle_show_create_sink scx nm =
          .ok (Plan.SendRows [[Datum.str name, Datum.str (scx.getItem name).create_sql]])) ∧
      ((scx.getItem name).item_type = CatalogItemType.Index →
        handle_show_create_index scx nm =
          .ok (Plan.SendRows [[Datum.str name, Datum.str (scx.getItem name).create_sql]]))) := by
  intro scx nm name h
  refine ⟨fun ht => ?_, fun ht => ?_, fun ht => ?_, fun ht => ?_, fun ht => ?_⟩ <;>
    simp [handle_show_create_view, handle_show_create_table, handle_show_create_source,
      handle_show_create_sink, handle_show_create_index, h, ht]

/-- C6 witness: a concrete view round-trips its defining text. -/
theorem c6_show_create_roundtrip_witness :
    handle_show_create_view
        (itemCtx "db.sch.v1" CatalogItemType.View "CREATE VIEW v1 AS SELECT 1" "u1") "v1" =
      .ok (Plan.SendRows [[Datum.str "db.sch.v1", Datum.str "CREATE VIEW v1 AS SELECT 1"]]) :=
  (c6_show_create_roundtrip
    (itemCtx "db.sch.v1" CatalogItemType.View "CREATE VIEW v1 AS SELECT 1" "u1")
    "v1" "db.sch.v1" rfl).1 rfl

/-- C4 counterexample: `SHOW CREATE VIEW` on an item that is actually a table fails
with the message "v1 is not a view"; the message names the resolved name and the
requested kind but does not contain the item's actual kind ("table"), refuting the
claim that the error names the actual kind. -/
theorem c4_counterexample :
    handle_show_create_view (itemCtx "v1" CatalogItemType.Table "CREATE TABLE v1 ()" "u1") "v1" =
      .error (.other "v1 is not a view") ∧
    hasSubstr "v1 is not a view" (CatalogItemType.toDisplay CatalogItemType.Table) = false :=
  ⟨rfl, by decide⟩

/-- C4 (amended): on a kind mismatch each `SHOW CREATE` handler fails — returning no
row — with an error naming the resolved qualified name and the requested kind
("`name` is not a view" and so on), though not the actual kind of the item. -/
theorem c4_wrong_object_type :
    ∀ (scx : StatementContext) (nm name : String),
      scx.resolveItem nm = .ok name →
      (((scx.getItem name).item_type ≠ CatalogItemType.View →
        handle_show_create_view scx nm = .error (.other (name ++ " is not a view"))) ∧
      ((scx.getItem name).item_type ≠ CatalogItemType.Table →
        handle_show_create_table scx nm = .error (.other (name ++ " is not a table"))) ∧
      ((scx.getItem name).item_type ≠ CatalogItemType.Source →
        handle_show_create_source scx nm = .error (.other (name ++ " is not a source"))) ∧
      ((scx.getItem name).item_type ≠ CatalogItemType.Sink →
        handle_show_create_sink scx nm =
          .error (.other ("\x27" ++ name ++ "\x27 is not a sink"))) ∧
      ((scx.getItem name).item_type ≠ CatalogItemType.Index →
        handle_show_create_index scx nm =
          .error (.other ("\x27" ++ name ++ "\x27 is not an index")))) := by
  intro scx nm name h
  refine ⟨fun ht => ?_, fun ht => ?_, fun ht => ?_, fun ht => ?_, fun ht => ?_⟩ <;>
    simp [handle_show_create_view, handle_show_create_table, handle_show_create_source,
      handle_show_create_sink, handle_show_create_index, h, ht]

/-- C4 witness for the amended claim. -/
theorem c4_wrong_object_type_witness :
    handle_show_create_view (itemCtx "v1" CatalogItemType.Table "sql" "u1") "v1" =
      .error (.other ("v1" ++ " is not a view")) :=
  (c4_wrong_object_type (itemCtx "v1" CatalogItemType.Table "sql" "u1") "v1" "v1" rfl).1
    (by decide)

/-- C10: `show_indexes` validates its target after resolution: when the item's kind
is not `View`, `Source` or `Table`, it fails with the message naming the item and
its actual kind, and no query is synthesized. -/
theorem c10_show_indexes_target_guard :
    ∀ (scx : StatementContext) (nm name : String) (filter : Option ShowStatementFilter),
      scx.resolveItem nm = .ok name →
      (scx.getItem name).item_type ≠ CatalogItemType.View →
      (scx.getItem name).item_type ≠ CatalogItemType.Source →
      (scx.getItem name).item_type ≠ CatalogItemType.Table →
      show_indexes scx false nm filter =
        .error (.other ("cannot show indexes on " ++ name ++ " because it is a " ++
          (scx.getItem name).item_type.toDisplay)) := by
  intro scx nm name filter h h1 h2 h3
  simp [show_indexes, h, h1, h2, h3]

/-- C10 witness: a sink target is rejected. -/
theorem c10_show_indexes_target_guard_witness :
    show_indexes (itemCtx "s1" CatalogItemType.Sink "sql" "u5") false "s1" none =
      .error (.other ("cannot show indexes on " ++ "s1" ++ " because it is a " ++
        CatalogItemType.toDisplay CatalogItemType.Sink)) :=
  c10_show_indexes_target_guard (itemCtx "s1" CatalogItemType.Sink "sql" "u5") "s1" "s1" none
    rfl (by decide) (by decide) (by decide)

/-- C1 (code bug): `SHOW SOURCES` with `full = true` and `materialized = true`
synthesizes text whose select list ends with a dangling comma directly before
`FROM`.  By the spec's parser contract that text is malformed, so the
parse-and-assert step in `ShowSelect::new` fails and panics instead of yielding a
single `SELECT` statement, refuting the claim for this flag combination. -/
theorem c1_full_materialized_sources_malformed :
    (show_sources (schemaCtx "1") true true none none).map
      (fun s => danglingCommaBeforeFrom s.query) = Except.ok true := by
  rfl

/-! ## String-level bridge lemmas -/

theorem hasSubstr_append_left (a b frag : String)
    (h : hasSubstr a frag = true) : hasSubstr (a ++ b) frag = true := by
  unfold hasSubstr at *
  rw [String.data_append]
  exact hasSubstrL_append_left _ _ _ h

theorem hasSubstr_append_right (a b frag : String)
    (h : hasSubstr b frag = true) : hasSubstr (a ++ b) frag = true := by
  unfold hasSubstr at *
  rw [String.data_append]
  exact hasSubstrL_append_right _ _ _ h

theorem takeUntilSubstr_append (a b frag : String)
    (h : hasSubstr a frag = true) :
    takeUntilSubstr (a ++ b) frag = takeUntilSubstr a frag := by
  unfold hasSubstr at h
  unfold takeUntilSubstr
  rw [String.data_append]
  exact congrArg String.mk (takeUntilL_append _ _ _ h)

/-- String version of `hasSubstrL_append_middle_digits`: a digit-free fragment is
absent from `a ++ (b ++ c)` when `b` is nonempty all-digit text and the fragment is
absent from both `a` and `c`. -/
theorem hasSubstr_append_middle_digits (a b c frag : String)
    (hfrag : ∀ ch ∈ frag.data, ch.isDigit = false)
    (hb : ∀ ch ∈ b.data, ch.isDigit = true) (hbne : b.data ≠ [])
    (ha : hasSubstr a frag = false) (hc : hasSubstr c frag = false) :
    hasSubstr (a ++ (b ++ c)) frag = false := by
  cases hq : hasSubstr (a ++ (b ++ c)) frag with
  | false => rfl
  | true =>
    exfalso
    unfold hasSubstr at hq ha hc
    rw [String.data_append, String.data_append] at hq
    rcases hasSubstrL_append_middle_digits _ _ _ _ hfrag hb hbne hq with h' | h'
    · rw [ha] at h'; exact Bool.noConfusion h'
    · rw [hc] at h'; exact Bool.noConfusion h'

/-- C2 counterexample: for `SHOW SOURCES` with `full = true` and
`materialized = false` the select clause of the synthesized query (the text before
the first `FROM`) contains a third output column `materialized`, refuting the claim
that the output column list is exactly `name` and `type`. -/
theorem c2_counterexample :
    (show_sources (schemaCtx "1") true false none none).map
      (fun s => hasSubstr (takeUntilSubstr s.query "FROM") "materialized") =
      Except.ok true := by
  rfl

/-- C2 (amended): for `SHOW SOURCES` with `full = true` and `materialized = false`,
the synthesized query's output columns are exactly `name`, `type` and
`materialized` (a boolean computed by `CASE WHEN count > 0`), and the query is
ordered by `name, type` — for every schema id and filter. -/
theorem c2_full_sources_query (i : String) (f : Option ShowStatementFilter) :
    show_sources (schemaCtx i) true false none f =
      .ok ⟨"SELECT name, mz_internal.mz_classify_object_id(global_id) AS type,\n                CASE WHEN count > 0 then true ELSE false END materialized\n            FROM mz_catalog.mz_sources\n            JOIN (SELECT mz_catalog.mz_sources.global_id as global_id, count(mz_catalog.mz_indexes.on_global_id) AS count\n                  FROM mz_catalog.mz_sources\n                  LEFT JOIN mz_catalog.mz_indexes on mz_catalog.mz_sources.global_id = mz_catalog.mz_indexes.on_global_id\n                  GROUP BY mz_catalog.mz_sources.global_id) as mz_indexes_count\n                ON mz_catalog.mz_sources.global_id = mz_indexes_count.global_id\n            WHERE schema_id = " ++ i ++ " " ++ filterAndName f ++ "\n            ORDER BY name, type"⟩ ∧
    takeUntilSubstr
        ("SELECT name, mz_internal.mz_classify_object_id(global_id) AS type,\n                CASE WHEN count > 0 then true ELSE false END materialized\n            FROM mz_catalog.mz_sources\n            JOIN (SELECT mz_catalog.mz_sources.global_id as global_id, count(mz_catalog.mz_indexes.on_global_id) AS count\n                  FROM mz_catalog.mz_sources\n                  LEFT JOIN mz_catalog.mz_indexes on mz_catalog.mz_sources.global_id = mz_catalog.mz_indexes.on_global_id\n                  GROUP BY mz_catalog.mz_sources.global_id) as mz_indexes_count\n                ON mz_catalog.mz_sources.global_id = mz_indexes_count.global_id\n            WHERE schema_id = " ++ i ++ " " ++ filterAndName f ++ "\n            ORDER BY name, type") "FROM" =
      "SELECT name, mz_internal.mz_classify_object_id(global_id) AS type,\n                CASE WHEN count > 0 then true ELSE false END materialized\n            " ∧
    hasSubstr ("SELECT name, mz_internal.mz_classify_object_id(global_id) AS type,\n                CASE WHEN count > 0 then true ELSE false END materialized\n            FROM mz_catalog.mz_sources\n            JOIN (SELECT mz_catalog.mz_sources.global_id as global_id, count(mz_catalog.mz_indexes.on_global_id) AS count\n                  FROM mz_catalog.mz_sources\n                  LEFT JOIN mz_catalog.mz_indexes on mz_catalog.mz_sources.global_id = mz_catalog.mz_indexes.on_global_id\n                  GROUP BY mz_catalog.mz_sources.global_id) as mz_indexes_count\n                ON mz_catalog.mz_sources.global_id = mz_indexes_count.global_id\n            WHERE schema_id = " ++ i ++ " " ++ filterAndName f ++ "\n            ORDER BY name, type")
      "ORDER BY name, type" = true := by
  refine ⟨rfl, ?_, ?_⟩
  · simp only [takeUntilSubstr, String.data_append, List.append_assoc]
    have hA : hasSubstrL "FROM".data (String.data
        "SELECT name, mz_internal.mz_classify_object_id(global_id) AS type,\n                CASE WHEN count > 0 then true ELSE false END materialized\n            FROM mz_catalog.mz_sources\n            JOIN (SELECT mz_catalog.mz_sources.global_id as global_id, count(mz_catalog.mz_indexes.on_global_id) AS count\n                  FROM mz_catalog.mz_sources\n                  LEFT JOIN mz_catalog.mz_indexes on mz_catalog.mz_sources.global_id = mz_catalog.mz_indexes.on_global_id\n                  GROUP BY mz_catalog.mz_sources.global_id) as mz_indexes_count\n                ON mz_catalog.mz_sources.global_id = mz_indexes_count.global_id\n            WHERE schema_id = ") = true := by decide
    rw [takeUntilL_append _ _ _ hA]
    decide
  · exact hasSubstr_append_right _ _ _ (by decide)

/-- C3 counterexample: for `SHOW VIEWS` with `full = true` and
`materialized = false` the synthesized query's ORDER BY clause is `name`, not
`name, type` (the text `ORDER BY name, type` does not occur); and with
`materialized = true` the query has no `materialized` output column (the text
`materialized` does not occur at all).  Both refute the claim for full views. -/
theorem c3_counterexample :
    (show_views (schemaCtx "1") true false none none).map
      (fun s => hasSubstr s.query "ORDER BY name, type") = Except.ok false ∧
    (show_views (schemaCtx "1") true true none none).map
      (fun s => hasSubstr s.query "materialized") = Except.ok false := by
  exact ⟨rfl, rfl⟩

/-- C3 (amended): for `SHOW VIEWS` with `full = true` and `materialized = false`
the output columns are `name`, `type` and `materialized` (`count > 0`); with
`full = true` and `materialized = true` they are only `name` and `type`; in both
cases the ORDER BY clause is `name` alone — for every schema id and filter. -/
theorem c3_full_views_query (i : String) (f : Option ShowStatementFilter) :
    (show_views (schemaCtx i) true false none f =
      .ok ⟨"SELECT\n                name,\n                mz_internal.mz_classify_object_id(global_id) AS type,\n                count > 0 as materialized\n             FROM mz_catalog.mz_views as mz_views\n             JOIN (SELECT mz_views.global_id as global_id, count(mz_indexes.on_global_id) AS count\n                   FROM mz_views\n                   LEFT JOIN mz_indexes on mz_views.global_id = mz_indexes.on_global_id\n                   GROUP BY mz_views.global_id) as mz_indexes_count\n                ON mz_views.global_id = mz_indexes_count.global_id\n             WHERE mz_catalog.mz_views.schema_id = " ++ i ++ " " ++ filterAndName f ++ "\n             ORDER BY name"⟩ ∧
    takeUntilSubstr
        ("SELECT\n                name,\n                mz_internal.mz_classify_object_id(global_id) AS type,\n                count > 0 as materialized\n             FROM mz_catalog.mz_views as mz_views\n             JOIN (SELECT mz_views.global_id as global_id, count(mz_indexes.on_global_id) AS count\n                   FROM mz_views\n                   LEFT JOIN mz_indexes on mz_views.global_id = mz_indexes.on_global_id\n                   GROUP BY mz_views.global_id) as mz_indexes_count\n                ON mz_views.global_id = mz_indexes_count.global_id\n             WHERE mz_catalog.mz_views.schema_id = " ++ i ++ " " ++ filterAndName f ++ "\n             ORDER BY name") "FROM" =
      "SELECT\n                name,\n                mz_internal.mz_classify_object_id(global_id) AS type,\n                count > 0 as materialized\n             ") ∧
    (show_views (schemaCtx i) true true none f =
      .ok ⟨"SELECT name, mz_internal.mz_classify_object_id(global_id) AS type\n             FROM mz_catalog.mz_views\n             JOIN (SELECT mz_views.global_id as global_id, count(mz_indexes.on_global_id) AS count\n                   FROM mz_views\n                   LEFT JOIN mz_indexes on mz_views.global_id = mz_indexes.on_global_id\n                   GROUP BY mz_views.global_id) as mz_indexes_count\n                ON mz_views.global_id = mz_indexes_count.global_id\n             WHERE mz_catalog.mz_views.schema_id = " ++ i ++ "\n                AND mz_indexes_count.count > 0 " ++ filterAndName f ++ "\n             ORDER BY name"⟩ ∧
    takeUntilSubstr
        ("SELECT name, mz_internal.mz_classify_object_id(global_id) AS type\n             FROM mz_catalog.mz_views\n             JOIN (SELECT mz_views.global_id as global_id, count(mz_indexes.on_global_id) AS count\n                   FROM mz_views\n                   LEFT JOIN mz_indexes on mz_views.global_id = mz_indexes.on_global_id\n                   GROUP BY mz_views.global_id) as mz_indexes_count\n                ON mz_views.global_id = mz_indexes_count.global_id\n             WHERE mz_catalog.mz_views.schema_id = " ++ i ++ "\n                AND mz_indexes_count.count > 0 " ++ filterAndName f ++ "\n             ORDER BY name") "FROM" =
      "SELECT name, mz_internal.mz_classify_object_id(global_id) AS type\n             ") := by
  refine ⟨⟨rfl, ?_⟩, ⟨rfl, ?_⟩⟩
  · simp only [takeUntilSubstr, String.data_append, List.append_assoc]
    have hA : hasSubstrL "FROM".data (String.data
        "SELECT\n                name,\n                mz_internal.mz_classify_object_id(global_id) AS type,\n                count > 0 as materialized\n             FROM mz_catalog.mz_views as mz_views\n             JOIN (SELECT mz_views.global_id as global_id, count(mz_indexes.on_global_id) AS count\n                   FROM mz_views\n                   LEFT JOIN mz_indexes on mz_views.global_id = mz_indexes.on_global_id\n                   GROUP BY mz_views.global_id) as mz_indexes_count\n                ON mz_views.global_id = mz_indexes_count.global_id\n             WHERE mz_catalog.mz_views.schema_id = ") = true := by decide
    rw [takeUntilL_append _ _ _ hA]
    decide
  · simp only [takeUntilSubstr, String.data_append, List.append_assoc]
    have hA : hasSubstrL "FROM".data (String.data
        "SELECT name, mz_internal.mz_classify_object_id(global_id) AS type\n             FROM mz_catalog.mz_views\n             JOIN (SELECT mz_views.global_id as global_id, count(mz_indexes.on_global_id) AS count\n                   FROM mz_views\n                   LEFT JOIN mz_indexes on mz_views.global_id = mz_indexes.on_global_id\n                   GROUP BY mz_views.global_id) as mz_indexes_count\n                ON mz_views.global_id = mz_indexes_count.global_id\n             WHERE mz_catalog.mz_views.schema_id = ") = true := by decide
    rw [takeUntilL_append _ _ _ hA]
    decide

/-- Left-associated form of the middle-digits lemma, matching the shape
`pre ++ id ++ mid1 ++ mid2 ++ post` in which the synthesized queries embed the
schema identifier. -/
theorem hasSubstr_five_middle_digits (a b c d e frag : String)
    (hfrag : ∀ ch ∈ frag.data, ch.isDigit = false)
    (hb : ∀ ch ∈ b.data, ch.isDigit = true) (hbne : b.data ≠ [])
    (ha : hasSubstr a frag = false)
    (hcde : hasSubstr (c ++ (d ++ e)) frag = false) :
    hasSubstr ((((a ++ b) ++ c) ++ d) ++ e) frag = false := by
  cases hq : hasSubstr ((((a ++ b) ++ c) ++ d) ++ e) frag with
  | false => rfl
  | true =>
    exfalso
    unfold hasSubstr at hq ha hcde
    simp only [String.data_append, List.append_assoc] at hq hcde
    rcases hasSubstrL_append_middle_digits _ _ _ _ hfrag hb hbne hq with h' | h'
    · rw [ha] at h'; exact Bool.noConfusion h'
    · rw [hcde] at h'; exact Bool.noConfusion h'

/-- C7: with the `materialized` flag set (and `full` unset), the queries for
`SHOW SOURCES` and `SHOW VIEWS` restrict the result through a LEFT JOIN and
GROUP BY aggregate over the index metadata table with a `count > 0` predicate —
for every schema id and filter; and with both flags unset (and no filter) the
synthesized query never mentions the index metadata table at all, for every
all-digit nonempty schema id. -/
theorem c7_materialized_via_index_join :
    (∀ (i : String) (f : Option ShowStatementFilter),
      ∃ s, show_sources (schemaCtx i) false true none f = .ok s ∧
        hasSubstr s.query "LEFT JOIN mz_catalog.mz_indexes" = true ∧
        hasSubstr s.query "GROUP BY mz_catalog.mz_sources.global_id" = true ∧
        hasSubstr s.query "mz_indexes_count.count > 0" = true) ∧
    (∀ (i : String) (f : Option ShowStatementFilter),
      ∃ s, show_views (schemaCtx i) false true none f = .ok s ∧
        hasSubstr s.query "LEFT JOIN mz_indexes on mz_views.global_id = mz_indexes.on_global_id" = true ∧
        hasSubstr s.query "GROUP BY mz_views.global_id" = true ∧
        hasSubstr s.query "mz_indexes_count.count > 0" = true) ∧
    (∀ (i : String), (∀ ch ∈ i.data, ch.isDigit = true) → i.data ≠ [] →
      (show_sources (schemaCtx i) false false none none).map
        (fun s => hasSubstr s.query "mz_indexes") = Except.ok false ∧
      (show_views (schemaCtx i) false false none none).map
        (fun s => hasSubstr s.query "mz_indexes") = Except.ok false) := by
  refine ⟨fun i f => ⟨_, rfl, ?_, ?_, ?_⟩, fun i f => ⟨_, rfl, ?_, ?_, ?_⟩,
    fun i hdig hne => ⟨?_, ?_⟩⟩
  · exact hasSubstr_append_left _ _ _ (hasSubstr_append_left _ _ _
      (hasSubstr_append_left _ _ _ (hasSubstr_append_left _ _ _ (by decide))))
  · exact hasSubstr_append_left _ _ _ (hasSubstr_append_left _ _ _
      (hasSubstr_append_left _ _ _ (hasSubstr_append_left _ _ _ (by decide))))
  · exact hasSubstr_append_right _ _ _ (by decide)
  · exact hasSubstr_append_left _ _ _ (hasSubstr_append_left _ _ _
      (hasSubstr_append_left _ _ _ (hasSubstr_append_left _ _ _ (by decide))))
  · exact hasSubstr_append_left _ _ _ (hasSubstr_append_left _ _ _
      (hasSubstr_append_left _ _ _ (hasSubstr_append_left _ _ _ (by decide))))
  · exact hasSubstr_append_left _ _ _ (hasSubstr_append_left _ _ _
      (hasSubstr_append_right _ _ _ (by decide)))
  · exact congrArg Except.ok
      (hasSubstr_five_middle_digits
        "SELECT name FROM mz_catalog.mz_sources WHERE schema_id = " i " " (filterAndName none)
        " ORDER BY name" "mz_indexes"
        (by decide) hdig hne (by decide) (by decide))
  · exact congrArg Except.ok
      (hasSubstr_five_middle_digits
        "SELECT name\n             FROM mz_catalog.mz_views\n             WHERE mz_catalog.mz_views.schema_id = " i " " (filterAndName none)
        "\n             ORDER BY name" "mz_indexes"
        (by decide) hdig hne (by decide) (by decide))

/-- C7 witness: at the concrete schema id "42", the plain (non-materialized)
queries never mention the index metadata table. -/
theorem c7_materialized_via_index_join_witness :
    (show_sources (schemaCtx "42") false false none none).map
      (fun s => hasSubstr s.query "mz_indexes") = Except.ok false ∧
    (show_views (schemaCtx "42") false false none none).map
      (fun s => hasSubstr s.query "mz_indexes") = Except.ok false :=
  c7_materialized_via_index_join.2.2 "42" (by decide) (by decide)

/-- C8: for `SHOW INDEXES` (without `EXTENDED`) on a valid target, the base query
projects exactly `on_name, key_name, column_name, expression, nullable,
seq_in_index` (its select clause, the text before the first `FROM`, lists exactly
those aliases), ordered by `key_name ASC, seq_in_index ASC`; with no filter the
base query is used as is, and with a filter the predicate is applied in an outer
SELECT wrapping the base query rather than inlined into it. -/
theorem c8_show_indexes_query_shape :
    ∀ (gid : String) (flt : ShowStatementFilter),
      show_indexes (itemCtx "t1" CatalogItemType.View "sql" gid) false "t1" none =
        .ok ⟨show_indexes_base_query gid⟩ ∧
      show_indexes (itemCtx "t1" CatalogItemType.View "sql" gid) false "t1" (some flt) =
        .ok ⟨"SELECT on_name, key_name, column_name, expression, nullable, seq_in_index\n             FROM (" ++ show_indexes_base_query gid ++ ")\n             WHERE " ++ filterKeyName flt⟩ ∧
      hasSubstr (show_indexes_base_query gid)
        "ORDER BY\n            key_name ASC,\n            seq_in_index ASC" = true ∧
      takeUntilSubstr (show_indexes_base_query gid) "FROM" =
        "SELECT\n            objs.name AS on_name,\n            idxs.name AS key_name,\n            cols.name AS column_name,\n            idxs.expression AS expression,\n            idxs.nullable AS nullable,\n            idxs.seq_in_index AS seq_in_index\n        " := by
  intro gid flt
  refine ⟨rfl, rfl, ?_, ?_⟩
  · exact hasSubstr_append_right _ _ _ (by decide)
  · simp only [show_indexes_base_query, takeUntilSubstr, String.data_append,
      List.append_assoc]
    have hA : hasSubstrL "FROM".data (String.data
        "SELECT\n            objs.name AS on_name,\n            idxs.name AS key_name,\n            cols.name AS column_name,\n            idxs.expression AS expression,\n            idxs.nullable AS nullable,\n            idxs.seq_in_index AS seq_in_index\n        FROM\n            mz_catalog.mz_indexes AS idxs\n            JOIN mz_catalog.mz_objects AS objs ON idxs.on_global_id = objs.global_id\n            LEFT JOIN mz_catalog.mz_columns AS cols\n                ON idxs.on_global_id = cols.global_id AND idxs.field_number = cols.field_number\n        WHERE\n            objs.global_id = \x27") = true := by decide
    rw [takeUntilL_append _ _ _ hA]
    decide

/-- C9: the filter translation at each call site — `Like` becomes
`<column> LIKE <quoted-pattern>` with the column chosen per call site (`name` for
databases, schemas, tables, sources, views and columns; `sinks` for sinks;
`key_name` for indexes), `Where` becomes the expression's surface text unmodified,
and an absent filter becomes the literal truth value at the always-wrapped call
sites (databases, schemas), the empty fragment at the inline call sites, and the
unwrapped base query for indexes. -/
theorem c9_filter_translation :
    (∀ (scx : StatementContext) (f : Option ShowStatementFilter),
      show_databases scx f =
        .ok ⟨"SELECT * FROM (SELECT name FROM mz_catalog.mz_databases) WHERE " ++
          filterWhereName f⟩) ∧
    (∀ p, filterWhereName (some (.Like p)) = "name LIKE " ++ sqlStringLiteral p) ∧
    (∀ e, filterWhereName (some (.Where e)) = e) ∧
    filterWhereName none = "true" ∧
    (∀ (i : String) (f : Option ShowStatementFilter),
      show_schemas (schemaCtx i) false false none f =
        .ok ⟨"SELECT * FROM (" ++
          ("SELECT name FROM mz_catalog.mz_schemas WHERE database_id = " ++ i) ++
          ") WHERE " ++ filterWhereName f⟩) ∧
    (∀ p, filterAndName (some (.Like p)) = "AND name LIKE " ++ sqlStringLiteral p) ∧
    (∀ e, filterAndName (some (.Where e)) = "AND " ++ e) ∧
    filterAndName none = "" ∧
    (∀ (i : String) (f : Option ShowStatementFilter),
      show_tables (schemaCtx i) false false none f =
        .ok ⟨"SELECT name FROM mz_catalog.mz_tables WHERE schema_id = " ++ i ++ " " ++
          filterAndName f ++ " ORDER BY name"⟩) ∧
    (∀ (i : String) (f : Option ShowStatementFilter),
      show_sources (schemaCtx i) false false none f =
        .ok ⟨"SELECT name FROM mz_catalog.mz_sources WHERE schema_id = " ++ i ++ " " ++
          filterAndName f ++ " ORDER BY name"⟩) ∧
    (∀ (i : String) (f : Option ShowStatementFilter),
      show_views (schemaCtx i) false false none f =
        .ok ⟨"SELECT name\n             FROM mz_catalog.mz_views\n             WHERE mz_catalog.mz_views.schema_id = " ++ i ++ " " ++ filterAndName f ++ "\n             ORDER BY name"⟩) ∧
    (∀ (gid : String) (f : Option ShowStatementFilter),
      show_columns (itemCtx "t1" CatalogItemType.Table "sql" gid) false false "t1" f =
        .ok ⟨"SELECT\n            mz_columns.name,\n            mz_columns.nullable,\n            mz_columns.type\n         FROM mz_catalog.mz_columns AS mz_columns\n         WHERE mz_columns.global_id = \x27" ++ gid ++ "\x27 " ++ filterAndName f ++ "\n         ORDER BY mz_columns.field_number ASC"⟩) ∧
    (∀ p, filterAndSinks (some (.Like p)) = "AND sinks LIKE " ++ sqlStringLiteral p) ∧
    (∀ e, filterAndSinks (some (.Where e)) = "AND " ++ e) ∧
    filterAndSinks none = "" ∧
    (∀ (i : String) (f : Option ShowStatementFilter),
      show_sinks (schemaCtx i) false none f =
        .ok ⟨"SELECT name FROM mz_catalog.mz_sinks WHERE schema_id = " ++ i ++ " " ++
          filterAndSinks f ++ " ORDER BY name"⟩) ∧
    (∀ p, filterKeyName (.Like p) = "key_name LIKE " ++ sqlStringLiteral p) ∧
    (∀ e, filterKeyName (.Where e) = e) ∧
    (∀ (gid : String) (flt : ShowStatementFilter),
      show_indexes (itemCtx "t1" CatalogItemType.View "sql" gid) false "t1" (some flt) =
        .ok ⟨"SELECT on_name, key_name, column_name, expression, nullable, seq_in_index\n             FROM (" ++ show_indexes_base_query gid ++ ")\n             WHERE " ++ filterKeyName flt⟩) ∧
    (∀ (gid : String),
      show_indexes (itemCtx "t1" CatalogItemType.View "sql" gid) false "t1" none =
        .ok ⟨show_indexes_base_query gid⟩) :=
  ⟨fun _ _ => rfl, fun _ => rfl, fun _ => rfl, rfl, fun _ _ => rfl, fun _ => rfl,
    fun _ => rfl, rfl, fun _ _ => rfl, fun _ _ => rfl, fun _ _ => rfl, fun _ _ => rfl,
    fun _ => rfl, fun _ => rfl, rfl, fun _ _ => rfl, fun _ => rfl, fun _ => rfl,
    fun _ _ => rfl, fun _ => rfl⟩

end MaterializeShow




